import Mathlib

/-!
Verification of the GridLAB-D model editing engine
(`runtime/gridlabd_edit.py`, namespace `GE`, and `runtime/gridlabd_json.py`,
namespace `GJ`) against its specification.

Modelling conventions:
* Python dicts are ordered association lists (`List (String × _)`) with
  first-match lookup (`List.lookup`), insertion-order preserving assignment
  (`setKey`) and key removal (`delKey`); keys of a real dict are unique, so
  first-match lookup agrees with dict lookup.
* Top-level model sections that the code tolerates being absent are `Option`
  fields; `none` models a missing key.
* Mutating operations return the post-call state paired with an `Except`
  result, so an exception raised after an in-place mutation is visible in the
  returned state (this is what makes atomicity claims non-trivial).
* The recursive parent-chain walks of the source have no cycle guard; they are
  modelled with a fuel parameter, and exhausting the fuel (for every fuel
  value) corresponds to Python aborting the recursion with RecursionError.
* Exceptions are modelled by one constructor per exception class / built-in
  error kind; message text is dropped except for the key of a KeyError.
-/

deriving instance DecidableEq for Except

/-- Python `k in d.keys()` for a dict modelled as an association list. -/
def hasKey {α : Type} (l : List (String × α)) (k : String) : Bool :=
  (List.lookup k l).isSome

/-- Python dict assignment `d[k] = v`: update the existing entry in place,
otherwise append the new entry at the end (insertion order). -/
def setKey {α : Type} : List (String × α) → String → α → List (String × α)
  | [], k, v => [(k, v)]
  | (k', v') :: rest, k, v =>
    if k' = k then (k, v) :: rest else (k', v') :: setKey rest k v

/-- Python `del d[k]`. -/
def delKey {α : Type} (l : List (String × α)) (k : String) : List (String × α) :=
  l.filter (fun p => p.1 != k)

/-- Python truthiness of the `limit` argument (`if limit and ...`):
`None` and `0` are falsy. -/
def limitTruthy : Option Nat → Bool
  | none => false
  | some k => k != 0

/-- The numeric value of a truthy `limit` (unused when falsy). -/
def limitVal : Option Nat → Nat
  | none => 0
  | some k => k

/-- A JSON value stored in an object's property dict: a string, or the
integer `id` the engine assigns. -/
inductive OVal where
  | s : String → OVal
  | n : Nat → OVal
deriving DecidableEq

/-- A value stored in a class dict: either a plain string (such as the
`parent` or `module` entries) or a property-spec dict, modelled by its
optional `type` and `flags` fields (the only fields the verified code
reads). -/
inductive ClassEntry where
  | str : String → ClassEntry
  | spec : Option String → Option String → ClassEntry
deriving DecidableEq

/-- A schedule or filter payload: a string, or a keyed structure of string
fields. -/
inductive Payload where
  | pstr : String → Payload
  | pdict : List (String × String) → Payload
deriving DecidableEq

namespace GE

/-- Exception classes of `gridlabd_edit.py` plus the Python built-in errors
the code can hit. -/
inductive EErr where
  | modelError
  | missingValue
  | invalidValue
  | noEntity
  | invalidCommand
  | entityInUse
  | entityExists
  | runtimeError
  | nameError
  | attributeError
  | typeError
  | recursionError
  | keyError (key : String)
deriving DecidableEq

/-- One class definition: property name to entry. -/
abbrev ClassData := List (String × ClassEntry)

/-- One object: property name to value. -/
abbrev ObjData := List (String × OVal)

/-- The `DATA` dict of `GridlabdModel`, restricted to the sections the
verified operations read.  `header` entries are modelled by the `type`
field of the header spec (the only field read).  `objects`, `filters` and
`schedules` are `Option` because the code probes for their presence. -/
structure EditModel where
  header : List (String × String)
  classes : List (String × ClassData)
  objects : Option (List (String × ObjData))
  filters : Option (List (String × String))
  schedules : Option (List (String × String))
deriving DecidableEq

/-- `get_objects`: raises `GridlabdModelError` when the `objects` section is
missing. -/
def get_objects (m : EditModel) : Except EErr (List (String × ObjData)) :=
  match m.objects with
  | none => .error .modelError
  | some objs => .ok objs

/-- `get_filters`: a missing `filters` section is returned as an empty
dict. -/
def get_filters (m : EditModel) : List (String × String) :=
  match m.filters with
  | none => []
  | some fs => fs

/-- `get_schedules`: a missing `schedules` section is returned as an empty
dict. -/
def get_schedules (m : EditModel) : List (String × String) :=
  match m.schedules with
  | none => []
  | some ss => ss

/-- `get_property_type`: header first, then the class's own entry, then the
parent chain.  The source recurses with no cycle guard; the fuel models the
Python recursion limit, and running out is RecursionError.  A dict-valued
`parent` entry is unhashable as a dict key, hence TypeError. -/
def get_property_type : Nat → EditModel → String → String → Except EErr String
  | 0, _, _, _ => .error .recursionError
  | fuel + 1, m, classname, propname =>
    match List.lookup propname m.header with
    | some t => .ok t
    | none =>
      match List.lookup classname m.classes with
      | none => .error .missingValue
      | some classdata =>
        match List.lookup propname classdata with
        | some (ClassEntry.spec (some t) _) => .ok t
        | some (ClassEntry.spec none _) => .error .modelError
        | some (ClassEntry.str _) => .error .modelError
        | none =>
          match List.lookup "parent" classdata with
          | some (ClassEntry.str p) => get_property_type fuel m p propname
          | some (ClassEntry.spec _ _) => .error .typeError
          | none => .error .missingValue

/-- `get_property_type` as invoked with a dynamic classname taken from an
object's `class` value: an integer classname is never among the (string)
class keys, so after a header miss the source raises
`GridlabdMissingValue`. -/
def get_property_type_of (fuel : Nat) (m : EditModel) (classname : OVal)
    (propname : String) : Except EErr String :=
  match classname with
  | OVal.s c => get_property_type fuel m c propname
  | OVal.n _ =>
    match List.lookup propname m.header with
    | some t => .ok t
    | none => .error .missingValue

/-- The properties of one class dict whose spec carries a `flags` field
containing the pipe-delimited token `REQUIRED`. -/
def required_of (classdata : ClassData) : List String :=
  classdata.filterMap (fun kv =>
    match kv.2 with
    | ClassEntry.spec _ (some flags) =>
      if "REQUIRED" ∈ flags.splitOn "|" then some kv.1 else none
    | _ => none)

/-- `get_required_properties`: collects the REQUIRED-flagged properties of
the class, then, if the class has a parent, line 659 calls the module-level
name `get_required_properties`, which is not defined (the function is a
method), so Python raises NameError.  A missing class is a raw KeyError
from `self.get_classes()[oclass]`. -/
def get_required_properties (m : EditModel) (oclass : String) :
    Except EErr (List String) :=
  match List.lookup oclass m.classes with
  | none => .error (.keyError oclass)
  | some classdata =>
    if hasKey classdata "parent" then .error .nameError
    else .ok (required_of classdata)

/-- The inner loop of `get_object_reference_count` over one object's
property dict.  `Sum.inl` is the early `return refcount` taken when the
truthy limit is reached; `Sum.inr` is falling off the loop.  The property
type is resolved before the value comparison (Python evaluates the `and`
left to right), so a type-resolution error surfaces even for
non-matching values. -/
def scan_props (fuel : Nat) (m : EditModel) (target : String)
    (classname : OVal) :
    List (String × OVal) → Nat → Option Nat → Except EErr (Nat ⊕ Nat)
  | [], refcount, _ => .ok (.inr refcount)
  | (propname, propvalue) :: rest, refcount, limit =>
    match get_property_type_of fuel m classname propname with
    | .error e => .error e
    | .ok t =>
      if t = "object" ∧ propvalue = OVal.s target then
        let rc := refcount + 1
        if limitTruthy limit ∧ limitVal limit ≤ rc then .ok (.inl rc)
        else scan_props fuel m target classname rest rc limit
      else scan_props fuel m target classname rest refcount limit

/-- The outer loop of `get_object_reference_count`: each object's `class`
value is read (KeyError if absent), then every property of the object is
scanned. -/
def scan_objects (fuel : Nat) (m : EditModel) (target : String) :
    List (String × ObjData) → Nat → Option Nat → Except EErr Nat
  | [], refcount, _ => .ok refcount
  | (_, values) :: rest, refcount, limit =>
    match List.lookup "class" values with
    | none => .error (.keyError "class")
    | some classname =>
      match scan_props fuel m target classname values refcount limit with
      | .error e => .error e
      | .ok (.inl rc) => .ok rc
      | .ok (.inr rc) => scan_objects fuel m target rest rc limit

/-- `get_object_reference_count(name, limit=1)`: counts object-typed
property values equal to `name`; note the source's default for `limit`
is `1`, not `None`. -/
def get_object_reference_count (fuel : Nat) (m : EditModel) (name : String)
    (limit : Option Nat) : Except EErr Nat :=
  match m.objects with
  | none => .error .modelError
  | some objects => scan_objects fuel m name objects 0 limit

/-- First loop of `get_class_reference_count`: classes whose `parent` entry
equals `name` (a dict-valued `parent` never equals a string). -/
def scan_class_parents :
    List (String × ClassData) → String → Nat → Option Nat → Nat ⊕ Nat
  | [], _, rc, _ => .inr rc
  | (_, values) :: rest, name, rc, limit =>
    if List.lookup "parent" values = some (ClassEntry.str name) then
      let rc' := rc + 1
      if limitTruthy limit ∧ limitVal limit ≤ rc' then .inl rc'
      else scan_class_parents rest name rc' limit
    else scan_class_parents rest name rc limit

/-- Second loop of `get_class_reference_count`: objects whose `class` value
equals `name` (membership-guarded, so no KeyError here). -/
def scan_object_classes :
    List (String × ObjData) → String → Nat → Option Nat → Nat ⊕ Nat
  | [], _, rc, _ => .inr rc
  | (_, values) :: rest, name, rc, limit =>
    if List.lookup "class" values = some (OVal.s name) then
      let rc' := rc + 1
      if limitTruthy limit ∧ limitVal limit ≤ rc' then .inl rc'
      else scan_object_classes rest name rc' limit
    else scan_object_classes rest name rc limit

/-- `get_class_reference_count(name, limit=1)`.  `get_objects` is only
reached when the class loop does not return early, matching the source. -/
def get_class_reference_count (m : EditModel) (name : String)
    (limit : Option Nat) : Except EErr Nat :=
  match scan_class_parents m.classes name 0 limit with
  | .inl rc => .ok rc
  | .inr rc =>
    match m.objects with
    | none => .error .modelError
    | some objs =>
      match scan_object_classes objs name rc limit with
      | .inl rc2 => .ok rc2
      | .inr rc2 => .ok rc2

/-- `delete_object(name=...)`: fetches objects, counts inbound references
with `limit=1`, fails `GridlabdEntityInUse` when any exist, then
`GridlabdNoEntity` when the object is absent, else deletes.  The method
accepts no policy argument; extra keyword arguments such as `policy` are
absorbed by `**kwargs` and ignored. -/
def delete_object (fuel : Nat) (m : EditModel) (name : String) :
    EditModel × Except EErr Unit :=
  match m.objects with
  | none => (m, .error .modelError)
  | some objects =>
    match get_object_reference_count fuel m name (some 1) with
    | .error e => (m, .error e)
    | .ok refcount =>
      if 0 < refcount then (m, .error .entityInUse)
      else if !(hasKey objects name) then (m, .error .noEntity)
      else ({ m with objects := some (delKey objects name) }, .ok ())

/-- `insert_object(**kwargs)`: validates the class, overwrites any
caller-supplied `id` with `len(objects)` (warning only), synthesizes
`"<class>:<id>"` when no name is given, checks for a name collision, and
then line 527 evaluates the undefined module-level name
`get_required_properties` — NameError.  The insertion on line 531 is
unreachable. -/
def insert_object (m : EditModel) (kwargs : List (String × String)) :
    EditModel × Except EErr Unit :=
  match m.objects with
  | none => (m, .error .modelError)
  | some objects =>
    match List.lookup "class" kwargs with
    | none => (m, .error .modelError)
    | some oclass =>
      if !(hasKey m.classes oclass) then (m, .error .missingValue)
      else
        let oid := objects.length
        let oname :=
          match List.lookup "name" kwargs with
          | some s => s
          | none => oclass ++ ":" ++ toString oid
        if hasKey objects oname then (m, .error .entityExists)
        else (m, .error .nameError)

/-- The per-command routing entry of `VALID_COMMANDS`: whether input data is
required, the minimum positional-argument count, and the minimum
keyword-argument count. -/
structure CmdSpec where
  input : Nat
  args : Nat
  kwargs : Nat
deriving DecidableEq

/-- The `VALID_COMMANDS` routing table. -/
def VALID_COMMANDS : List (String × CmdSpec) :=
  [("create", ⟨0, 1, 1⟩), ("delete", ⟨1, 2, 1⟩), ("insert", ⟨1, 2, 1⟩),
   ("search", ⟨1, 2, 1⟩), ("script", ⟨1, 1, 1⟩), ("update", ⟨1, 2, 1⟩)]

/-- The methods defined on class `GridlabdModel` (the relevant portion of
`dir(self)`; the class data attributes and inherited dunders never collide
with a verb-derived handler name).  Note there is no `update_global` and no
`search_*` method. -/
def method_names : List String :=
  ["parse", "read", "write", "command", "create",
   "delete_class", "delete_filter", "delete_global", "delete_module",
   "delete_object", "delete_schedule",
   "insert_class", "insert_filter", "insert_global", "insert_module",
   "insert_object", "insert_schedule",
   "script",
   "update_class", "update_filter", "update_module", "update_object",
   "update_schedule",
   "get_classes", "get_headers", "get_property_type", "get_filters",
   "get_globals", "get_modules", "get_objects", "get_schedules",
   "check_model", "get_version", "get_required_properties",
   "get_object_reference_count", "get_class_reference_count", "get_types"]

/-- The dispatcher `command(self, *args, **kwargs)` up to the point where the
routed handler is invoked; `.ok fname` is the handler the source would call.
`hasData` is `self.DATA != None` and `nkwargs` is `len(kwargs)`.  Note the
source executes `call = getattr(self, fname)` before its handler-existence
guard, so an unknown verb+component pair raises AttributeError, and the
guard on line 315 is unreachable. -/
def command (hasData : Bool) (args : List String) (nkwargs : Nat) :
    Except EErr String :=
  match args with
  | [] => .error .invalidCommand
  | cmd :: _ =>
    match List.lookup cmd VALID_COMMANDS with
    | none => .error .invalidCommand
    | some spec =>
      if args.length < spec.args then .error .invalidCommand
      else
        let fname := String.intercalate "_" (args.take spec.args)
        if nkwargs < spec.kwargs then .error .invalidCommand
        else if !(method_names.contains fname) then .error .attributeError
        else if hasData && (spec.input == 0) then .error .invalidCommand
        else if (!hasData) && (spec.input == 1) then .error .invalidCommand
        else .ok fname

end GE

namespace GJ

/-- Error kinds of `gridlabd_json.py`: the single `GldException` class is
split by raise site into conceptual kinds, plus the Python built-in errors
the code can hit. -/
inductive JErr where
  | entityExists
  | invalidItem
  | invalidType
  | invalidKey
  | missingSpec
  | notAString
  | keyError (key : String)
  | attributeError
  | typeError
  | recursionError
deriving DecidableEq

/-- The `data` dict of `GldModel`, restricted to the sections the verified
operations read.  `globals`, `schedules` and `filters` are `Option` fields
because the code can observe their absence; the structure fixes the set of
top-level keys, in particular there is never a singular `schedule` key. -/
structure GldModel where
  types : List String
  modules : List (String × List (String × String))
  classes : List (String × List (String × ClassEntry))
  objects : List (String × List (String × OVal))
  globals : Option (List (String × List (String × String)))
  schedules : Option (List (String × Payload))
  filters : Option (List (String × Payload))
deriving DecidableEq

/-- `check_schedule`: the payload must be a string. -/
def check_schedule (name : String) (data : Payload) : Except JErr Bool :=
  match data with
  | Payload.pstr _ => .ok true
  | Payload.pdict _ => .error .notAString

/-- `add_schedule`: validates the payload, assigns
`self.data["schedules"][name] = data` (no collision check — an existing
entry is overwritten), then `return self.data["schedule"][name]` looks up
the misspelled singular key, which no model has: KeyError raised after the
mutation. -/
def add_schedule (m : GldModel) (name : String) (data : Payload) :
    GldModel × Except JErr Payload :=
  match check_schedule name data with
  | .error e => (m, .error e)
  | .ok _ =>
    match m.schedules with
    | none => (m, .error (.keyError "schedules"))
    | some scheds =>
      ({ m with schedules := some (setKey scheds name data) },
       .error (.keyError "schedule"))

/-- `check_global`: every data item key must be in the allow-list, then
`data["type"]` (KeyError if absent) must be a known type. -/
def check_global (m : GldModel) (name : String)
    (data : List (String × String)) : Except JErr Bool :=
  if !(data.all (fun kv => ["type", "keywords", "access", "value"].contains kv.1)) then
    .error .invalidItem
  else
    match List.lookup "type" data with
    | none => .error (.keyError "type")
    | some t => if m.types.contains t then .ok true else .error .invalidType

/-- `add_global`: collision check first (`GldException` "already defined"),
then validation, then insertion; the `type` and `access` parameters of the
source signature are unused by the body. -/
def add_global (m : GldModel) (name : String)
    (data : List (String × String)) :
    GldModel × Except JErr (List (String × String)) :=
  match m.globals with
  | none => (m, .error (.keyError "globals"))
  | some gs =>
    if hasKey gs name then (m, .error .entityExists)
    else
      match check_global m name data with
      | .error e => (m, .error e)
      | .ok _ => ({ m with globals := some (setKey gs name data) }, .ok data)

/-- `delete_global(name)`: `del self.data["globals"]` removes the whole
globals section, whatever `name` is; KeyError when the section is
absent. -/
def delete_global (m : GldModel) (name : String) :
    GldModel × Except JErr Bool :=
  match m.globals with
  | none => (m, .error (.keyError "globals"))
  | some _ => ({ m with globals := none }, .ok true)

/-- Required keys of a filter payload. -/
def filter_required_keys : List String :=
  ["domain", "timestep", "numerator", "denominator"]

/-- Recognized keys of a filter payload. -/
def filter_allowed_keys : List String :=
  ["domain", "timestep", "timeskew", "resolution", "minimum", "maximum",
   "numerator", "denominator"]

/-- `check_filter`: the four required keys must be present and every key
must be recognized; a string payload has no `keys()` method
(AttributeError). -/
def check_filter (name : String) (data : Payload) : Except JErr Bool :=
  match data with
  | Payload.pstr _ => .error .attributeError
  | Payload.pdict d =>
    if !(filter_required_keys.all (fun k => hasKey d k)) then .error .missingSpec
    else if !(d.all (fun kv => filter_allowed_keys.contains kv.1)) then
      .error .invalidKey
    else .ok true

/-- `add_filter`: the collision check tolerates a missing `filters` section,
then validation, then `self.data["filters"][name] = data`, which raises
KeyError when the section is absent (the section is never created). -/
def add_filter (m : GldModel) (name : String) (data : Payload) :
    GldModel × Except JErr Payload :=
  if (match m.filters with | some fs => hasKey fs name | none => false) then
    (m, .error .entityExists)
  else
    match check_filter name data with
    | .error e => (m, .error e)
    | .ok _ =>
      match m.filters with
      | none => (m, .error (.keyError "filters"))
      | some fs => ({ m with filters := some (setKey fs name data) }, .ok data)

/-- `get_filters`: a missing `filters` section reads as an empty dict. -/
def get_filters (m : GldModel) : List (String × Payload) :=
  match m.filters with
  | none => []
  | some fs => fs

/-- `isa_class`: walks the parent chain with no cycle guard; the fuel models
the Python recursion limit (RecursionError when exhausted).  A dict-valued
`parent` entry is unhashable as a dict key, hence TypeError. -/
def isa_class : Nat → GldModel → String → String → Except JErr Bool
  | 0, _, _, _ => .error .recursionError
  | fuel + 1, m, name, kindof =>
    match List.lookup name m.classes with
    | none => .error (.keyError name)
    | some oclass =>
      match List.lookup "parent" oclass with
      | none => .ok (name == kindof)
      | some (ClassEntry.str p) => isa_class fuel m p kindof
      | some (ClassEntry.spec _ _) => .error .typeError

/-- `delete_object(name, found)`: line 993 reads
`self.data["objects"]["name"]` — the literal key `"name"` — and then calls
`.items()` on a `GldClass` instance, which has no such method unless the
class data defines an `items` entry (then the attribute is not callable:
TypeError).  Every path raises before any deletion, so the method never
removes anything; `found` is never consulted. -/
def delete_object (m : GldModel) (name : String) (found : String) :
    GldModel × Except JErr Bool :=
  match List.lookup "name" m.objects with
  | none => (m, .error (.keyError "name"))
  | some data =>
    match List.lookup "class" data with
    | none => (m, .error (.keyError "class"))
    | some (OVal.n i) => (m, .error (.keyError (toString i)))
    | some (OVal.s c) =>
      match List.lookup c m.classes with
      | none => (m, .error (.keyError c))
      | some classdata =>
        if hasKey classdata "items" then (m, .error .typeError)
        else (m, .error .attributeError)

end GJ

/-- Whether a type-resolution result is a successful `object` type. -/
def is_object_type (e : Except GE.EErr String) : Bool :=
  match e with
  | Except.ok t => t == "object"
  | Except.error _ => false

/-- Modelled from the spec's words, for comparison with the code's counter:
the exact total number of object-typed property values equal to the target
across all objects, property types resolved per the schema (header first,
then the class chain). -/
def reference_total_spec (fuel : Nat) (m : GE.EditModel) (target : String) :
    Nat :=
  match m.objects with
  | none => 0
  | some objs =>
    (objs.map (fun ov =>
      (ov.2.filter (fun pv =>
        is_object_type
            (match List.lookup "class" ov.2 with
             | some c => GE.get_property_type_of fuel m c pv.1
             | none => Except.error (GE.EErr.keyError "class"))
          && pv.2 == OVal.s target)).length)).sum

/-- A header shared by the concrete edit models: the built-in object
attributes `id`, `class` and `parent`, with `parent` declared of type
`object`. -/
def edit_header : List (String × String) :=
  [("id", "int64"), ("class", "char32"), ("parent", "object")]

/-- Concrete model for C1: `n2.parent` references `n1`. -/
def cm1 : GE.EditModel :=
  { header := edit_header,
    classes := [("node", [])],
    objects := some
      [("n1", [("class", OVal.s "node"), ("id", OVal.n 0)]),
       ("n2", [("class", OVal.s "node"), ("id", OVal.n 1),
               ("parent", OVal.s "n1")])],
    filters := none, schedules := none }

/-- Concrete model for C2/C3: one class `node`, no objects. -/
def cm3 : GE.EditModel :=
  { header := edit_header,
    classes := [("node", [])],
    objects := some [],
    filters := none, schedules := none }

/-- Concrete model for C4: two distinct references to `n1`. -/
def cm4 : GE.EditModel :=
  { header := edit_header,
    classes := [("node", [])],
    objects := some
      [("n1", [("class", OVal.s "node"), ("id", OVal.n 0)]),
       ("n2", [("class", OVal.s "node"), ("id", OVal.n 1),
               ("parent", OVal.s "n1")]),
       ("n3", [("class", OVal.s "node"), ("id", OVal.n 2),
               ("parent", OVal.s "n1")])],
    filters := none, schedules := none }

/-- Concrete edit model for C5: class `a` is its own parent. -/
def cm5e : GE.EditModel :=
  { header := [],
    classes := [("a", [("parent", ClassEntry.str "a")])],
    objects := some [],
    filters := none, schedules := none }

/-- Concrete json model for C5: class `a` is its own parent. -/
def cm5j : GJ.GldModel :=
  { types := [], modules := [],
    classes := [("a", [("parent", ClassEntry.str "a")])],
    objects := [], globals := some [], schedules := some [], filters := some [] }

/-- Concrete json model for C6: empty schedules section. -/
def cm6 : GJ.GldModel :=
  { types := [], modules := [], classes := [], objects := [],
    globals := some [], schedules := some [], filters := some [] }

/-- Concrete json model for C7: existing global `g` and schedule `s`. -/
def cm7 : GJ.GldModel :=
  { types := ["char1024"], modules := [], classes := [], objects := [],
    globals := some [("g", [("type", "char1024")])],
    schedules := some [("s", Payload.pstr "a")],
    filters := some [] }

/-- Concrete json model for C9: no `filters` and no `schedules` section. -/
def cm9 : GJ.GldModel :=
  { types := [], modules := [], classes := [], objects := [],
    globals := some [], schedules := none, filters := none }

/-- A well-formed filter payload (all four required keys, no extras). -/
def fd9 : Payload :=
  Payload.pdict
    [("domain", "z"), ("timestep", "1"), ("numerator", "a"),
     ("denominator", "b")]

/-- Concrete json model for C10: a globals section with one entry. -/
def cm10 : GJ.GldModel :=
  { types := ["char1024"], modules := [], classes := [], objects := [],
    globals := some [("version", [("type", "char1024")])],
    schedules := some [], filters := some [] }

/-- Claim C3 (code bug): on a model with class `node` and no objects,
`insert_object(class="node")` does not store an object named `node:0`; it
raises NameError (line 527 calls the undefined module-level name
`get_required_properties`) and leaves the model unchanged. -/
theorem c3_insert_object_name_error :
    GE.insert_object cm3 [("class", "node")]
      = (cm3, Except.error GE.EErr.nameError) := by decide

/-- Claim C5 (code bug): on a model whose class `a` is its own parent, the
parent-chain walks do not fail with `InvalidModel`: `get_property_type` and
`isa_class` recurse unboundedly (they exhaust any recursion budget, which
in Python is a RecursionError), and `get_required_properties` raises
NameError on any class with a parent. -/
theorem c5_parent_chain_cycle_divergence :
    (∀ fuel, GE.get_property_type fuel cm5e "a" "x"
        = Except.error GE.EErr.recursionError)
    ∧ GE.get_required_properties cm5e "a" = Except.error GE.EErr.nameError
    ∧ (∀ fuel, GJ.isa_class fuel cm5j "a" "b"
        = Except.error GJ.JErr.recursionError) := by
  refine ⟨?_, by decide, ?_⟩
  · intro fuel
    induction fuel with
    | zero => rfl
    | succ n ih => exact ih
  · intro fuel
    induction fuel with
    | zero => rfl
    | succ n ih => exact ih

/-- Claim C6 (code bug): `add_schedule` on a model with an empty schedules
section inserts the schedule and then fails (the return statement looks up
the misspelled key `schedule`), so a failed call leaves the model mutated,
contradicting the all-failures-leave-prior-state-intact contract. -/
theorem c6_add_schedule_mutates_on_failure :
    (GJ.add_schedule cm6 "s" (Payload.pstr "x")).2
        = Except.error (GJ.JErr.keyError "schedule")
    ∧ ((GJ.add_schedule cm6 "s" (Payload.pstr "x")).1).schedules
        = some [("s", Payload.pstr "x")]
    ∧ cm6.schedules = some [] := by decide

/-- Claim C8 (code bug): a verb+component pair with no handler method is
rejected with AttributeError, not `InvalidCommand` (the source's
handler-existence guard sits after the `getattr` call and is unreachable),
while a pair with a handler routes normally. -/
theorem c8_missing_handler_attribute_error :
    GE.command true ["search", "object"] 1 = Except.error GE.EErr.attributeError
    ∧ GE.command true ["update", "global"] 1
        = Except.error GE.EErr.attributeError
    ∧ GE.command true ["delete", "object"] 1 = Except.ok "delete_object"
    ∧ GE.EErr.attributeError ≠ GE.EErr.invalidCommand := by decide

/-- Claim C4 counterexample: on a model with two references to `n1`, a call
that passes no limit (the source default is `limit=1`) returns 1, not the
exact total 2; the exact total is only returned when `limit=None` is passed
explicitly. -/
theorem c4_default_limit_not_exact_cex :
    GE.get_object_reference_count 9 cm4 "n1" (some 1) = Except.ok 1
    ∧ reference_total_spec 9 cm4 "n1" = 2
    ∧ GE.get_object_reference_count 9 cm4 "n1" none = Except.ok 2 := by decide

/-- Claim C7 counterexample: `add_schedule` performs no collision check: on
a model whose schedules already contain `s`, adding `s` again does not fail
with `EntityExists`; it overwrites the entry (and then fails with KeyError
from the misspelled return lookup), leaving the collection changed. -/
theorem c7_schedule_collision_cex :
    cm7.schedules = some [("s", Payload.pstr "a")]
    ∧ (GJ.add_schedule cm7 "s" (Payload.pstr "b")).2
        = Except.error (GJ.JErr.keyError "schedule")
    ∧ ((GJ.add_schedule cm7 "s" (Payload.pstr "b")).1).schedules
        = some [("s", Payload.pstr "b")] := by decide

/-- Claim C9 counterexample: adding a valid filter to a model that lacks the
`filters` section does not succeed: the payload passes validation but the
insertion raises KeyError because the section is never created. -/
theorem c9_add_filter_missing_section_cex :
    GJ.check_filter "f" fd9 = Except.ok true
    ∧ GJ.add_filter cm9 "f" fd9 = (cm9, Except.error (GJ.JErr.keyError "filters")) := by decide

/-- Whether a call result is a success. -/
def okE {ε α : Type} : Except ε α → Bool
  | Except.ok _ => true
  | Except.error _ => false

/-- Helper: `insert_object` never reaches its insertion statement — every
path returns the input model with an error (the last check before the
insertion raises NameError). -/
theorem insert_object_never_inserts (m : GE.EditModel)
    (kwargs : List (String × String)) :
    (GE.insert_object m kwargs).1 = m
    ∧ okE (GE.insert_object m kwargs).2 = false := by
  unfold GE.insert_object
  constructor <;> (repeat first | rfl | split | dsimp only)

/-- Claim C2: `insert_object` is atomic — a failing call leaves the objects
collection (and the whole model) unchanged in cardinality and content.
(In this source every call fails: line 527 raises NameError before the
insertion statement, so the mutation on line 531 is unreachable.) -/
theorem c2_insert_object_atomic (m : GE.EditModel)
    (kwargs : List (String × String))
    (h : okE (GE.insert_object m kwargs).2 = false) :
    GE.get_objects (GE.insert_object m kwargs).1 = GE.get_objects m
    ∧ (GE.insert_object m kwargs).1 = m := by
  have hf := insert_object_never_inserts m kwargs
  exact ⟨by rw [hf.1], hf.1⟩

/-- Witness for C2 at a concrete input (unknown class `meter`). -/
theorem c2_insert_object_atomic_witness :
    GE.get_objects (GE.insert_object cm3 [("class", "meter")]).1
      = GE.get_objects cm3 :=
  (c2_insert_object_atomic cm3 [("class", "meter")] (by decide)).1

/-- Claim C10: on any model with a globals section, `delete_global(name)`
removes the entire section — not just the entry named `name`, which need
not exist — returns `True`, and leaves every other collection unchanged. -/
theorem c10_delete_global_removes_section (m : GJ.GldModel) (name : String)
    (gs : List (String × List (String × String))) (h : m.globals = some gs) :
    GJ.delete_global m name = ({ m with globals := none }, Except.ok true)
    ∧ ((GJ.delete_global m name).1).globals = none
    ∧ ((GJ.delete_global m name).1).types = m.types
    ∧ ((GJ.delete_global m name).1).modules = m.modules
    ∧ ((GJ.delete_global m name).1).classes = m.classes
    ∧ ((GJ.delete_global m name).1).objects = m.objects
    ∧ ((GJ.delete_global m name).1).schedules = m.schedules
    ∧ ((GJ.delete_global m name).1).filters = m.filters := by
  have hd : GJ.delete_global m name
      = ({ m with globals := none }, Except.ok true) := by
    unfold GJ.delete_global
    rw [h]
  refine ⟨hd, ?_, ?_, ?_, ?_, ?_, ?_, ?_⟩ <;> rw [hd]

/-- Witness for C10: deleting a global that does not even exist still
removes the whole section. -/
theorem c10_delete_global_witness :
    GJ.delete_global cm10 "no_such_global"
      = ({ cm10 with globals := none }, Except.ok true) :=
  (c10_delete_global_removes_section cm10 "no_such_global" _ rfl).1

/-- Claim C9 (amended): a missing `filters`/`schedules` section reads as an
empty collection (`get_filters` and `get_schedules` in the edit module,
`get_filters` in the json module), and `add_filter`'s collision check
tolerates the absence, but insertion does not create the section: adding a
valid filter to a model without the `filters` section fails with KeyError
and leaves the model unchanged. -/
theorem c9_missing_sections_amended :
    (∀ m : GE.EditModel, m.filters = none → GE.get_filters m = [])
    ∧ (∀ m : GE.EditModel, m.schedules = none → GE.get_schedules m = [])
    ∧ (∀ m : GJ.GldModel, m.filters = none → GJ.get_filters m = [])
    ∧ (∀ (m : GJ.GldModel) (n : String) (d : Payload), m.filters = none →
        GJ.check_filter n d = Except.ok true →
        GJ.add_filter m n d = (m, Except.error (GJ.JErr.keyError "filters"))) := by
  refine ⟨?_, ?_, ?_, ?_⟩
  · intro m h; unfold GE.get_filters; rw [h]
  · intro m h; unfold GE.get_schedules; rw [h]
  · intro m h; unfold GJ.get_filters; rw [h]
  · intro m n d h hc
    unfold GJ.add_filter
    rw [h, hc]
    rfl

/-- Witness for C9 at a concrete input: a valid filter payload on a model
without a `filters` section. -/
theorem c9_missing_sections_amended_witness :
    GJ.add_filter cm9 "g" fd9 = (cm9, Except.error (GJ.JErr.keyError "filters")) :=
  c9_missing_sections_amended.2.2.2 cm9 "g" fd9 rfl (by decide)

/-- Helper: `check_global` only succeeds with `True`. -/
theorem check_global_ok (m : GJ.GldModel) (n : String)
    (d : List (String × String)) (b : Bool)
    (h : GJ.check_global m n d = Except.ok b) : b = true := by
  unfold GJ.check_global at h
  split at h
  · simp_all
  · split at h
    · simp_all
    · split at h <;> simp_all

/-- Helper: `check_filter` only succeeds with `True`. -/
theorem check_filter_ok (n : String) (d : Payload) (b : Bool)
    (h : GJ.check_filter n d = Except.ok b) : b = true := by
  unfold GJ.check_filter at h
  split at h
  · simp_all
  · split at h
    · simp_all
    · split at h <;> simp_all

/-- Helper: case analysis of `add_global` — a failing call leaves the model
unchanged, and a successful call implies the payload passed validation. -/
theorem add_global_cases (m : GJ.GldModel) (n : String)
    (d : List (String × String)) :
    (okE (GJ.add_global m n d).2 = false → (GJ.add_global m n d).1 = m)
    ∧ (okE (GJ.add_global m n d).2 = true →
        GJ.check_global m n d = Except.ok true) := by
  have key : ∀ r, GJ.add_global m n d = r →
      (okE r.2 = false → r.1 = m)
      ∧ (okE r.2 = true → GJ.check_global m n d = Except.ok true) := by
    intro r hr
    unfold GJ.add_global at hr
    split at hr
    · subst hr; exact ⟨fun _ => rfl, fun h => by simp [okE] at h⟩
    · split at hr
      · subst hr; exact ⟨fun _ => rfl, fun h => by simp [okE] at h⟩
      · split at hr
        · subst hr; exact ⟨fun _ => rfl, fun h => by simp [okE] at h⟩
        · rename_i a heq
          subst hr
          exact ⟨fun h => by simp [okE] at h,
                 fun _ => by rw [heq, check_global_ok m n d a heq]⟩
  exact key _ rfl

/-- Helper: case analysis of `add_filter` — a failing call leaves the model
unchanged, and a successful call implies the payload passed validation. -/
theorem add_filter_cases (m : GJ.GldModel) (n : String) (d : Payload) :
    (okE (GJ.add_filter m n d).2 = false → (GJ.add_filter m n d).1 = m)
    ∧ (okE (GJ.add_filter m n d).2 = true →
        GJ.check_filter n d = Except.ok true) := by
  have key : ∀ r, GJ.add_filter m n d = r →
      (okE r.2 = false → r.1 = m)
      ∧ (okE r.2 = true → GJ.check_filter n d = Except.ok true) := by
    intro r hr
    unfold GJ.add_filter at hr
    split at hr
    · subst hr; exact ⟨fun _ => rfl, fun h => by simp [okE] at h⟩
    · split at hr
      · subst hr; exact ⟨fun _ => rfl, fun h => by simp [okE] at h⟩
      · rename_i a heq
        split at hr
        · subst hr; exact ⟨fun _ => rfl, fun h => by simp [okE] at h⟩
        · subst hr
          exact ⟨fun h => by simp [okE] at h,
                 fun _ => by rw [heq, check_filter_ok n d a heq]⟩
  exact key _ rfl

/-- Claim C7 (amended): `add_global` and `add_filter` validate the payload
before insertion and fail with `EntityExists` on a name collision, leaving
the collection unchanged on every failure; `add_schedule` validates that
the payload is a string before insertion, but performs no collision check —
a colliding add overwrites the existing entry and then fails with KeyError
from the misspelled return lookup, leaving the overwrite in place. -/
theorem c7_payload_gate_amended :
    (∀ (m : GJ.GldModel) (n : String) (d : List (String × String)) gs,
        m.globals = some gs → hasKey gs n = true →
        GJ.add_global m n d = (m, Except.error GJ.JErr.entityExists))
    ∧ (∀ (m : GJ.GldModel) (n : String) (d : List (String × String)),
        okE (GJ.add_global m n d).2 = false → (GJ.add_global m n d).1 = m)
    ∧ (∀ (m : GJ.GldModel) (n : String) (d : List (String × String)),
        okE (GJ.add_global m n d).2 = true →
        GJ.check_global m n d = Except.ok true)
    ∧ (∀ (m : GJ.GldModel) (n : String) (d : Payload) fs,
        m.filters = some fs → hasKey fs n = true →
        GJ.add_filter m n d = (m, Except.error GJ.JErr.entityExists))
    ∧ (∀ (m : GJ.GldModel) (n : String) (d : Payload),
        okE (GJ.add_filter m n d).2 = false → (GJ.add_filter m n d).1 = m)
    ∧ (∀ (m : GJ.GldModel) (n : String) (d : Payload),
        okE (GJ.add_filter m n d).2 = true →
        GJ.check_filter n d = Except.ok true)
    ∧ (∀ (m : GJ.GldModel) (n : String) (d : Payload) ss,
        m.schedules = some ss → GJ.check_schedule n d = Except.ok true →
        GJ.add_schedule m n d
          = ({ m with schedules := some (setKey ss n d) },
             Except.error (GJ.JErr.keyError "schedule"))) := by
  refine ⟨?_, fun m n d => (add_global_cases m n d).1,
          fun m n d => (add_global_cases m n d).2, ?_,
          fun m n d => (add_filter_cases m n d).1,
          fun m n d => (add_filter_cases m n d).2, ?_⟩
  · intro m n d gs h1 h2
    unfold GJ.add_global
    rw [h1]
    simp [h2]
  · intro m n d fs h1 h2
    unfold GJ.add_filter
    rw [h1]
    simp [h2]
  · intro m n d ss hs hok
    unfold GJ.add_schedule
    rw [hok, hs]

/-- Witness for C7 at a concrete input: a colliding `add_global` fails with
`EntityExists` and leaves the model unchanged. -/
theorem c7_payload_gate_amended_witness :
    GJ.add_global cm7 "g" [("type", "char1024")]
      = (cm7, Except.error GJ.JErr.entityExists) :=
  c7_payload_gate_amended.1 cm7 "g" [("type", "char1024")] _ rfl (by decide)

/-- Helper: `get_property_type` never raises `GridlabdEntityInUse`. -/
theorem get_property_type_ne_inuse :
    ∀ (fuel : Nat) (m : GE.EditModel) (c p : String),
      GE.get_property_type fuel m c p ≠ Except.error GE.EErr.entityInUse := by
  intro fuel
  induction fuel with
  | zero => intro m c p h; simp [GE.get_property_type] at h
  | succ k ih =>
    intro m c p h
    unfold GE.get_property_type at h
    repeat'
      first
      | exact ih _ _ _ h
      | simp at h
      | split at h

/-- Helper: `get_property_type_of` never raises `GridlabdEntityInUse`. -/
theorem get_property_type_of_ne_inuse (fuel : Nat) (m : GE.EditModel)
    (c : OVal) (p : String) :
    GE.get_property_type_of fuel m c p ≠ Except.error GE.EErr.entityInUse := by
  intro h
  unfold GE.get_property_type_of at h
  repeat'
    first
    | exact get_property_type_ne_inuse fuel m _ p h
    | simp at h
    | split at h

/-- Helper: the property scan never raises `GridlabdEntityInUse`. -/
theorem scan_props_ne_inuse (fuel : Nat) (m : GE.EditModel) (t : String)
    (c : OVal) :
    ∀ (props : List (String × OVal)) (rc : Nat) (lim : Option Nat),
      GE.scan_props fuel m t c props rc lim
        ≠ Except.error GE.EErr.entityInUse := by
  intro props
  induction props with
  | nil => intro rc lim h; simp [GE.scan_props] at h
  | cons kv rest ih =>
    intro rc lim h
    obtain ⟨pn, pv⟩ := kv
    unfold GE.scan_props at h
    split at h
    · rename_i e heq
      simp at h
      subst h
      exact get_property_type_of_ne_inuse fuel m c pn heq
    · split at h
      · dsimp only at h
        split at h
        · simp at h
        · exact ih _ _ h
      · exact ih _ _ h

/-- Helper: the object scan never raises `GridlabdEntityInUse`. -/
theorem scan_objects_ne_inuse (fuel : Nat) (m : GE.EditModel) (t : String) :
    ∀ (objs : List (String × GE.ObjData)) (rc : Nat) (lim : Option Nat),
      GE.scan_objects fuel m t objs rc lim
        ≠ Except.error GE.EErr.entityInUse := by
  intro objs
  induction objs with
  | nil => intro rc lim h; simp [GE.scan_objects] at h
  | cons kv rest ih =>
    intro rc lim h
    obtain ⟨k, values⟩ := kv
    unfold GE.scan_objects at h
    split at h
    · simp at h
    · split at h
      · rename_i e heq
        simp at h
        subst h
        exact scan_props_ne_inuse fuel m t _ values rc lim heq
      · simp at h
      · exact ih _ _ h

/-- Helper: `get_object_reference_count` never raises
`GridlabdEntityInUse`. -/
theorem count_ne_inuse (fuel : Nat) (m : GE.EditModel) (t : String)
    (lim : Option Nat) :
    GE.get_object_reference_count fuel m t lim
      ≠ Except.error GE.EErr.entityInUse := by
  intro h
  unfold GE.get_object_reference_count at h
  split at h
  · simp at h
  · exact scan_objects_ne_inuse fuel m t _ 0 lim h

/-- Claim C1: `delete_object(name, policy=fail)` fails with `EntityInUse`
exactly when `count_object_references(name, limit=1)` returns a positive
count; a failed call leaves the model unchanged; a successful deletion
implies the inbound count was zero.  The edit-module `delete_object` takes
no policy parameter (extra keyword arguments such as `policy=fail` are
absorbed by `**kwargs` and ignored), so the inbound gate applies for every
policy; the json-module iteration of `delete_object` raises on every path
before its deletion statement, so it never removes anything and hence
never breaks an inbound reference either. -/
theorem c1_delete_object_inbound_gate (fuel : Nat) (m : GE.EditModel)
    (name : String) :
    ((GE.delete_object fuel m name).2 = Except.error GE.EErr.entityInUse ↔
      ∃ r, GE.get_object_reference_count fuel m name (some 1) = Except.ok r
        ∧ 0 < r)
    ∧ (∀ e, (GE.delete_object fuel m name).2 = Except.error e →
        (GE.delete_object fuel m name).1 = m)
    ∧ ((GE.delete_object fuel m name).2 = Except.ok () →
        GE.get_object_reference_count fuel m name (some 1) = Except.ok 0)
    ∧ (∀ (jm : GJ.GldModel) (jn fnd : String),
        (GJ.delete_object jm jn fnd).1 = jm
        ∧ okE (GJ.delete_object jm jn fnd).2 = false) := by
  have hjson : ∀ (jm : GJ.GldModel) (jn fnd : String),
      (GJ.delete_object jm jn fnd).1 = jm
      ∧ okE (GJ.delete_object jm jn fnd).2 = false := by
    intro jm jn fnd
    unfold GJ.delete_object
    constructor <;> (repeat first | rfl | split | dsimp only)
  rcases ho : m.objects with _ | objs
  · have hd : GE.delete_object fuel m name
        = (m, Except.error GE.EErr.modelError) := by
      unfold GE.delete_object; rw [ho]
    have hc : GE.get_object_reference_count fuel m name (some 1)
        = Except.error GE.EErr.modelError := by
      unfold GE.get_object_reference_count; rw [ho]
    refine ⟨?_, ?_, ?_, hjson⟩
    · rw [hd, hc]
      constructor
      · intro h; exact absurd h (by simp)
      · rintro ⟨r, hr, _⟩; exact absurd hr (by simp)
    · intro e _; rw [hd]
    · intro h; rw [hd] at h; exact absurd h (by simp)
  · rcases hcnt : GE.get_object_reference_count fuel m name (some 1)
      with e | rc
    · have hd : GE.delete_object fuel m name = (m, Except.error e) := by
        unfold GE.delete_object; rw [ho, hcnt]
      refine ⟨?_, ?_, ?_, hjson⟩
      · rw [hd]
        constructor
        · intro h
          simp at h
          subst h
          exact absurd hcnt (count_ne_inuse fuel m name (some 1))
        · rintro ⟨r, hr, _⟩
          exact absurd hr (by simp)
      · intro e' _; rw [hd]
      · intro h; rw [hd] at h; exact absurd h (by simp)
    · by_cases hrc : 0 < rc
      · have hd : GE.delete_object fuel m name
            = (m, Except.error GE.EErr.entityInUse) := by
          unfold GE.delete_object
          rw [ho, hcnt]
          simp [hrc]
        refine ⟨?_, ?_, ?_, hjson⟩
        · constructor
          · intro _; exact ⟨rc, rfl, hrc⟩
          · intro _; rw [hd]
        · intro e' _; rw [hd]
        · intro h; rw [hd] at h; exact absurd h (by simp)
      · have hrc0 : rc = 0 := Nat.eq_zero_of_not_pos hrc
        subst hrc0
        by_cases hk : hasKey objs name
        · have hd : GE.delete_object fuel m name
              = ({ m with objects := some (delKey objs name) },
                 Except.ok ()) := by
            unfold GE.delete_object
            rw [ho, hcnt]
            simp [hk]
          refine ⟨?_, ?_, ?_, hjson⟩
          · rw [hd]
            constructor
            · intro h; exact absurd h (by simp)
            · rintro ⟨r, hr, hrp⟩
              simp at hr
              omega
          · intro e' h; rw [hd] at h; exact absurd h (by simp)
          · intro _; rfl
        · have hd : GE.delete_object fuel m name
              = (m, Except.error GE.EErr.noEntity) := by
            unfold GE.delete_object
            rw [ho, hcnt]
            simp [hk]
          refine ⟨?_, ?_, ?_, hjson⟩
          · rw [hd]
            constructor
            · intro h; exact absurd h (by simp)
            · rintro ⟨r, hr, hrp⟩
              simp at hr
              omega
          · intro e' _; rw [hd]
          · intro _; rfl

/-- Witness for C1 at a concrete input: in `cm1`, object `n1` is referenced
by `n2.parent`, so deleting `n1` fails with `EntityInUse`. -/
theorem c1_delete_object_inbound_gate_witness :
    (GE.delete_object 9 cm1 "n1").2 = Except.error GE.EErr.entityInUse :=
  (c1_delete_object_inbound_gate 9 cm1 "n1").1.mpr ⟨1, by decide, by decide⟩

/-- Helper: with a falsy limit the property scan never takes the early
return, and its running count only grows. -/
theorem scan_props_none_inr (fuel : Nat) (m : GE.EditModel) (t : String)
    (c : OVal) :
    ∀ (props : List (String × OVal)) (rc : Nat) (s : Nat ⊕ Nat),
      GE.scan_props fuel m t c props rc none = Except.ok s →
      ∃ n, s = Sum.inr n ∧ rc ≤ n := by
  intro props
  induction props with
  | nil =>
    intro rc s h
    simp [GE.scan_props] at h
    exact ⟨rc, h.symm, Nat.le_refl rc⟩
  | cons kv rest ih =>
    obtain ⟨pn, pv⟩ := kv
    intro rc s h
    unfold GE.scan_props at h
    split at h
    · simp at h
    · split at h
      · dsimp only at h
        rw [if_neg (by simp [limitTruthy])] at h
        obtain ⟨n, hn, hle⟩ := ih (rc + 1) s h
        exact ⟨n, hn, Nat.le_of_succ_le hle⟩
      · exact ih rc s h

/-- Helper: a truthy-limit property scan returns the capped value of its
unlimited run — early `Sum.inl k` the moment the count reaches `k`, and the
unchanged unlimited result otherwise. -/
theorem scan_props_limit (fuel : Nat) (m : GE.EditModel) (t : String)
    (c : OVal) :
    ∀ (props : List (String × OVal)) (rc k n : Nat), 1 ≤ k → rc < k →
      GE.scan_props fuel m t c props rc none = Except.ok (Sum.inr n) →
      GE.scan_props fuel m t c props rc (some k)
        = Except.ok (if k ≤ n then Sum.inl k else Sum.inr n) := by
  intro props
  induction props with
  | nil =>
    intro rc k n hk hrk h
    simp [GE.scan_props] at h
    subst h
    rw [if_neg (by omega)]
    simp [GE.scan_props]
  | cons kv rest ih =>
    obtain ⟨pn, pv⟩ := kv
    intro rc k n hk hrk h
    unfold GE.scan_props at h ⊢
    rcases hg : GE.get_property_type_of fuel m c pn with e | ty
    · rw [hg] at h; simp at h
    · rw [hg] at h
      dsimp only at h ⊢
      by_cases hcond : ty = "object" ∧ pv = OVal.s t
      · rw [if_pos hcond] at h ⊢
        rw [if_neg (by simp [limitTruthy])] at h
        have hlen : rc + 1 ≤ n := by
          obtain ⟨n', hn', hle'⟩ :=
            scan_props_none_inr fuel m t c rest (rc + 1) _ h
          injection hn' with h2
          omega
        by_cases hke : k ≤ rc + 1
        · have hkeq : k = rc + 1 := by omega
          rw [if_pos (⟨by simp [limitTruthy]; omega,
                        by simp [limitVal]; omega⟩ :
                limitTruthy (some k) = true ∧ limitVal (some k) ≤ rc + 1)]
          rw [if_pos (by omega : k ≤ n), hkeq]
        · rw [if_neg (by simp [limitTruthy, limitVal]; omega :
                ¬(limitTruthy (some k) = true ∧ limitVal (some k) ≤ rc + 1))]
          exact ih (rc + 1) k n hk (by omega) h
      · rw [if_neg hcond] at h ⊢
        exact ih rc k n hk hrk h

/-- Helper: the unlimited object scan only grows its running count. -/
theorem scan_objects_none_mono (fuel : Nat) (m : GE.EditModel) (t : String) :
    ∀ (objs : List (String × GE.ObjData)) (rc n : Nat),
      GE.scan_objects fuel m t objs rc none = Except.ok n → rc ≤ n := by
  intro objs
  induction objs with
  | nil => intro rc n h; simp [GE.scan_objects] at h; omega
  | cons kv rest ih =>
    obtain ⟨k0, values⟩ := kv
    intro rc n h
    unfold GE.scan_objects at h
    rcases hcl : List.lookup "class" values with _ | cname
    · rw [hcl] at h; simp at h
    · rw [hcl] at h
      dsimp only at h
      rcases hsp : GE.scan_props fuel m t cname values rc none with e | s
      · rw [hsp] at h; simp at h
      · obtain ⟨n', hn', hle⟩ :=
          scan_props_none_inr fuel m t cname values rc s hsp
        subst hn'
        rw [hsp] at h
        dsimp only at h
        exact Nat.le_trans hle (ih n' n h)

/-- Helper: a truthy-limit object scan returns the minimum of the unlimited
total and the limit. -/
theorem scan_objects_limit (fuel : Nat) (m : GE.EditModel) (t : String) :
    ∀ (objs : List (String × GE.ObjData)) (rc k n : Nat), 1 ≤ k → rc < k →
      GE.scan_objects fuel m t objs rc none = Except.ok n →
      GE.scan_objects fuel m t objs rc (some k) = Except.ok (min n k) := by
  intro objs
  induction objs with
  | nil =>
    intro rc k n hk hrk h
    simp [GE.scan_objects] at h
    subst h
    rw [Nat.min_eq_left (Nat.le_of_lt hrk)]
    simp [GE.scan_objects]
  | cons kv rest ih =>
    obtain ⟨k0, values⟩ := kv
    intro rc k n hk hrk h
    unfold GE.scan_objects at h ⊢
    rcases hcl : List.lookup "class" values with _ | cname
    · rw [hcl] at h; simp at h
    · rw [hcl] at h
      dsimp only at h ⊢
      rcases hsp : GE.scan_props fuel m t cname values rc none with e | s
      · rw [hsp] at h; simp at h
      · obtain ⟨rc', hs, hlerc⟩ :=
          scan_props_none_inr fuel m t cname values rc s hsp
        subst hs
        rw [hsp] at h
        dsimp only at h
        have hmono : rc' ≤ n := scan_objects_none_mono fuel m t rest rc' n h
        have hsp2 := scan_props_limit fuel m t cname values rc k rc' hk hrk hsp
        rw [hsp2]
        by_cases hkr : k ≤ rc'
        · rw [if_pos hkr]
          rw [Nat.min_eq_right (Nat.le_trans hkr hmono)]
        · rw [if_neg hkr]
          exact ih rc' k n hk (by omega) h

/-- Helper: with a falsy limit the class-parent scan never takes the early
return, and its running count only grows. -/
theorem scan_class_parents_none (nm : String) :
    ∀ (cs : List (String × GE.ClassData)) (rc : Nat),
      ∃ n, GE.scan_class_parents cs nm rc none = Sum.inr n ∧ rc ≤ n := by
  intro cs
  induction cs with
  | nil => intro rc; exact ⟨rc, rfl, Nat.le_refl rc⟩
  | cons kv rest ih =>
    obtain ⟨k0, values⟩ := kv
    intro rc
    unfold GE.scan_class_parents
    by_cases hp : List.lookup "parent" values = some (ClassEntry.str nm)
    · rw [if_pos hp]
      dsimp only
      rw [if_neg (by simp [limitTruthy])]
      obtain ⟨n, hn, hle⟩ := ih (rc + 1)
      exact ⟨n, hn, Nat.le_of_succ_le hle⟩
    · rw [if_neg hp]
      exact ih rc

/-- Helper: a truthy-limit class-parent scan returns the capped value of
its unlimited run. -/
theorem scan_class_parents_limit (nm : String) :
    ∀ (cs : List (String × GE.ClassData)) (rc k n : Nat), 1 ≤ k → rc < k →
      GE.scan_class_parents cs nm rc none = Sum.inr n →
      GE.scan_class_parents cs nm rc (some k)
        = (if k ≤ n then Sum.inl k else Sum.inr n) := by
  intro cs
  induction cs with
  | nil =>
    intro rc k n hk hrk h
    simp [GE.scan_class_parents] at h
    subst h
    rw [if_neg (by omega)]
    rfl
  | cons kv rest ih =>
    obtain ⟨k0, values⟩ := kv
    intro rc k n hk hrk h
    unfold GE.scan_class_parents at h ⊢
    by_cases hp : List.lookup "parent" values = some (ClassEntry.str nm)
    · rw [if_pos hp] at h ⊢
      dsimp only at h ⊢
      rw [if_neg (by simp [limitTruthy])] at h
      have hle : rc + 1 ≤ n := by
        obtain ⟨n', hn', hle'⟩ := scan_class_parents_none nm rest (rc + 1)
        rw [h] at hn'
        injection hn' with h2
        omega
      by_cases hke : k ≤ rc + 1
      · rw [if_pos (⟨by simp [limitTruthy]; omega,
                      by simp [limitVal]; omega⟩ :
              limitTruthy (some k) = true ∧ limitVal (some k) ≤ rc + 1)]
        rw [if_pos (by omega : k ≤ n)]
        have hkeq : k = rc + 1 := by omega
        rw [hkeq]
      · rw [if_neg (by simp [limitTruthy, limitVal]; omega :
              ¬(limitTruthy (some k) = true ∧ limitVal (some k) ≤ rc + 1))]
        exact ih (rc + 1) k n hk (by omega) h
    · rw [if_neg hp] at h ⊢
      exact ih rc k n hk hrk h

/-- Helper: with a falsy limit the object-class scan never takes the early
return, and its running count only grows. -/
theorem scan_object_classes_none (nm : String) :
    ∀ (objs : List (String × GE.ObjData)) (rc : Nat),
      ∃ n, GE.scan_object_classes objs nm rc none = Sum.inr n ∧ rc ≤ n := by
  intro objs
  induction objs with
  | nil => intro rc; exact ⟨rc, rfl, Nat.le_refl rc⟩
  | cons kv rest ih =>
    obtain ⟨k0, values⟩ := kv
    intro rc
    unfold GE.scan_object_classes
    by_cases hp : List.lookup "class" values = some (OVal.s nm)
    · rw [if_pos hp]
      dsimp only
      rw [if_neg (by simp [limitTruthy])]
      obtain ⟨n, hn, hle⟩ := ih (rc + 1)
      exact ⟨n, hn, Nat.le_of_succ_le hle⟩
    · rw [if_neg hp]
      exact ih rc

/-- Helper: a truthy-limit object-class scan returns the capped value of
its unlimited run. -/
theorem scan_object_classes_limit (nm : String) :
    ∀ (objs : List (String × GE.ObjData)) (rc k n : Nat), 1 ≤ k → rc < k →
      GE.scan_object_classes objs nm rc none = Sum.inr n →
      GE.scan_object_classes objs nm rc (some k)
        = (if k ≤ n then Sum.inl k else Sum.inr n) := by
  intro objs
  induction objs with
  | nil =>
    intro rc k n hk hrk h
    simp [GE.scan_object_classes] at h
    subst h
    rw [if_neg (by omega)]
    rfl
  | cons kv rest ih =>
    obtain ⟨k0, values⟩ := kv
    intro rc k n hk hrk h
    unfold GE.scan_object_classes at h ⊢
    by_cases hp : List.lookup "class" values = some (OVal.s nm)
    · rw [if_pos hp] at h ⊢
      dsimp only at h ⊢
      rw [if_neg (by simp [limitTruthy])] at h
      have hle : rc + 1 ≤ n := by
        obtain ⟨n', hn', hle'⟩ := scan_object_classes_none nm rest (rc + 1)
        rw [h] at hn'
        injection hn' with h2
        omega
      by_cases hke : k ≤ rc + 1
      · rw [if_pos (⟨by simp [limitTruthy]; omega,
                      by simp [limitVal]; omega⟩ :
              limitTruthy (some k) = true ∧ limitVal (some k) ≤ rc + 1)]
        rw [if_pos (by omega : k ≤ n)]
        have hkeq : k = rc + 1 := by omega
        rw [hkeq]
      · rw [if_neg (by simp [limitTruthy, limitVal]; omega :
              ¬(limitTruthy (some k) = true ∧ limitVal (some k) ≤ rc + 1))]
        exact ih (rc + 1) k n hk (by omega) h
    · rw [if_neg hp] at h ⊢
      exact ih rc k n hk hrk h

/-- Claim C4 (amended): with a truthy limit `k`, both reference counters
short-circuit at `k` — they return `min(exact_total, k)` whenever the
unlimited (`limit=None`) scan succeeds with `exact_total`.  But the
source's default for `limit` is `1`, not `None`: a call that passes no
limit returns `min(exact_total, 1)`, and an exact count requires passing a
falsy limit explicitly. -/
theorem c4_reference_limit_amended :
    (∀ (fuel : Nat) (m : GE.EditModel) (t : String) (k n : Nat), 1 ≤ k →
        GE.get_object_reference_count fuel m t none = Except.ok n →
        GE.get_object_reference_count fuel m t (some k) = Except.ok (min n k))
    ∧ (∀ (m : GE.EditModel) (t : String) (k n : Nat), 1 ≤ k →
        GE.get_class_reference_count m t none = Except.ok n →
        GE.get_class_reference_count m t (some k) = Except.ok (min n k)) := by
  constructor
  · intro fuel m t k n hk h
    unfold GE.get_object_reference_count at h ⊢
    rcases ho : m.objects with _ | objs
    · rw [ho] at h; simp at h
    · rw [ho] at h
      dsimp only at h ⊢
      exact scan_objects_limit fuel m t objs 0 k n hk (by omega) h
  · intro m t k n hk h
    unfold GE.get_class_reference_count at h
    rcases hcp : GE.scan_class_parents m.classes t 0 none with rc1 | rc1
    · obtain ⟨n', hn', _⟩ := scan_class_parents_none t m.classes 0
      rw [hcp] at hn'
      exact absurd hn' (by simp)
    · rw [hcp] at h
      dsimp only at h
      rcases ho : m.objects with _ | objs
      · rw [ho] at h; simp at h
      · rw [ho] at h
        dsimp only at h
        rcases hoc : GE.scan_object_classes objs t rc1 none with r2 | r2
        · obtain ⟨n', hn', _⟩ := scan_object_classes_none t objs rc1
          rw [hoc] at hn'
          exact absurd hn' (by simp)
        · rw [hoc] at h
          dsimp only at h
          simp at h
          subst h
          have hmono2 : rc1 ≤ r2 := by
            obtain ⟨n', hn', hle⟩ := scan_object_classes_none t objs rc1
            rw [hoc] at hn'
            injection hn' with h2
            omega
          have hlim1 := scan_class_parents_limit t m.classes 0 k rc1 hk
            (by omega) hcp
          by_cases hkr : k ≤ rc1
          · have hlim1' : GE.scan_class_parents m.classes t 0 (some k)
                = Sum.inl k := by rw [hlim1, if_pos hkr]
            simp only [GE.get_class_reference_count, hlim1']
            rw [Nat.min_eq_right (Nat.le_trans hkr hmono2)]
          · have hlim1' : GE.scan_class_parents m.classes t 0 (some k)
                = Sum.inr rc1 := by rw [hlim1, if_neg hkr]
            have hlim2 := scan_object_classes_limit t objs rc1 k r2 hk
              (by omega) hoc
            by_cases hkn : k ≤ r2
            · have hlim2' : GE.scan_object_classes objs t rc1 (some k)
                  = Sum.inl k := by rw [hlim2, if_pos hkn]
              simp only [GE.get_class_reference_count, hlim1', ho, hlim2']
              rw [Nat.min_eq_right hkn]
            · have hlim2' : GE.scan_object_classes objs t rc1 (some k)
                  = Sum.inr r2 := by rw [hlim2, if_neg hkn]
              simp only [GE.get_class_reference_count, hlim1', ho, hlim2']
              rw [Nat.min_eq_left (by omega)]

/-- Witness for C4's amended theorem at a concrete input: on `cm4` the
unlimited count of references to `n1` is 2, so `limit=3` returns
`min 2 3 = 2`. -/
theorem c4_reference_limit_amended_witness :
    GE.get_object_reference_count 9 cm4 "n1" (some 3) = Except.ok (min 2 3) :=
  c4_reference_limit_amended.1 9 cm4 "n1" 3 2 (by decide) (by decide)
